import Mathlib

/-!
Verification of the Meteor connection-manager subsystem of this repository:
the `MeteorClientConnection` class of `src/utilities/meteor_client_connection.py`,
the singleton-style manager of `src/utilities/meteor_tools.py` (its `get_client`
and `call_method`), the per-call tool of `src/meteor_tools/factory.py`
(`create_meteor_tool.meteor_tool`), and the Meteor fields of
`src/react_agent/configuration.py`.

The embedding is a shallow one.  JSON-compatible Python values are the
inductive `Value`.  The external DDP client library (`MeteorClient`) is a
black box: each of its operations either succeeds or raises, and an `Oracle`
record supplies, per invocation, the outcome the transport would produce.
The callback fired by the transport is supplied as a pair
`(cbError, cbResult)` of values.  Every externally visible transport
operation is recorded as an event (`Ev`) in a trace, so that claims about
"connect is invoked", "login is never invoked", "disconnect runs before
return" become statements about traces.  Raised Python exceptions are the
`Except PyError` error channel.
-/

namespace Meteor

/-- JSON-compatible Python values (None, bool, number, string, list, dict). -/
inductive Value where
  | vnull
  | vbool (b : Bool)
  | vnum (n : Int)
  | vstr (s : String)
  | vlist (items : List Value)
  | vobj (fields : List (String × Value))

/-- Python truthiness of a `Value`, as used by `if error:` and
`if username and password`. -/
def truthy : Value → Bool
  | Value.vnull => false
  | Value.vbool b => b
  | Value.vnum n => !(n == 0)
  | Value.vstr s => !s.isEmpty
  | Value.vlist items => !items.isEmpty
  | Value.vobj fields => !fields.isEmpty

mutual

/-- Model of Python `str()` on a JSON-compatible value (the exact rendering
of containers is irrelevant to the claims; only that it is a function of the
value matters). -/
def pyStr : Value → String
  | Value.vnull => "None"
  | Value.vbool b => bif b then "True" else "False"
  | Value.vnum n => toString n
  | Value.vstr s => s
  | Value.vlist items => "[" ++ pyStrItems items ++ "]"
  | Value.vobj fields => "\x7b" ++ pyStrFields fields ++ "\x7d"

/-- Comma-joined rendering of list items, companion of `pyStr`. -/
def pyStrItems : List Value → String
  | [] => ""
  | [v] => pyStr v
  | v :: rest => pyStr v ++ ", " ++ pyStrItems rest

/-- Comma-joined rendering of dict fields, companion of `pyStr`. -/
def pyStrFields : List (String × Value) → String
  | [] => ""
  | [kv] => kv.1 ++ ": " ++ pyStr kv.2
  | kv :: rest => kv.1 ++ ": " ++ pyStr kv.2 ++ ", " ++ pyStrFields rest

end

/-- Observable operations performed on the external transport (the
`MeteorClient` library object). The second field of `login` models the UTF-8
byte encoding of the password. -/
inductive Ev where
  | createClient (url : String)
  | connect
  | login (user : String) (passwordBytes : String)
  | rpcCall (method : String) (args : List Value)
  | disconnect

/-- Whether an event is a transport `connect()` invocation. -/
def isConnectEv : Ev → Bool
  | Ev.connect => true
  | _ => false

/-- Whether an event is a transport `login(...)` invocation. -/
def isLoginEv : Ev → Bool
  | Ev.login _ _ => true
  | _ => false

/-- Whether an event is a transport `call(...)` (RPC) invocation. -/
def isRpcEv : Ev → Bool
  | Ev.rpcCall _ _ => true
  | _ => false

/-- Number of transport `connect()` invocations in a trace. -/
def countConnect (tr : List Ev) : Nat := (tr.filter isConnectEv).length

/-- True when a trace contains no `login` event. -/
def noLogin (tr : List Ev) : Bool := tr.all (fun e => !isLoginEv e)

/-- Python exceptions raised by the modelled code. -/
inductive PyError where
  | connectionError (msg : String)
  | valueError (msg : String)
  | socketError (msg : String)
  | exception (msg : String)

/-- Model of Python `str(e)` on a raised exception (each carries its
message). -/
def pyErrMsg : PyError → String
  | PyError.connectionError m => m
  | PyError.valueError m => m
  | PyError.socketError m => m
  | PyError.exception m => m

/-- Outcome the external transport would produce for the current
`connect()` and `login(...)` attempts: `none` means the operation succeeds,
`some m` means it raises a `socket.error` with message `m`. -/
structure Oracle where
  connectErr : Option String
  loginErr : Option String

/-- The always-succeeding transport behaviour. -/
def oracleOk : Oracle := { connectErr := none, loginErr := none }

/-! ### `MeteorClientConnection` (src/utilities/meteor_client_connection.py) -/

/-- Mutable state of a `MeteorClientConnection` instance: the configured
identity (`url`, `username`, `password`), whether `self.client` is non-None
(`clientPresent`) and which url it was built for, and the two flags. -/
structure MCCState where
  url : String
  username : String
  password : String
  clientPresent : Bool
  clientUrl : String
  is_connected : Bool
  is_logged_in : Bool

/-- The `__init__` of `MeteorClientConnection`.  In the source the three
environment lookups are commented out and replaced by hard-coded literals;
the subsequent `is None` checks (which would raise `ValueError`) are kept
here exactly as written, operating on the hard-coded values.  `env` is the
process environment, which the code as written ignores.  Returns the
constructed state together with the trace of transport operations
(`MeteorClient(self.url)` creates the client object). -/
def mccInitEnv (pfx : String) (env : String → Option String) :
    Except PyError (MCCState × List Ev) :=
  let url? : Option String := some ("ws://127.0.0.1:3000/websocket")
  let username? : Option String := some ("LangGraphAgent")
  let password? : Option String := some ("reasonablySafePassword1723")
  match url? with
  | none => Except.error (PyError.valueError (pfx ++ "_METEOR_URL not set"))
  | some url =>
    match username? with
    | none => Except.error (PyError.valueError (pfx ++ "_METEOR_USERNAME not set"))
    | some username =>
      match password? with
      | none => Except.error (PyError.valueError (pfx ++ "_METEOR_PASSWORD not set"))
      | some password =>
        Except.ok
          ({ url := url, username := username, password := password,
             clientPresent := true, clientUrl := url,
             is_connected := false, is_logged_in := false },
           [Ev.createClient url])

/-- The state every constructed `MeteorClientConnection` starts in. -/
def mccInit0 : MCCState :=
  { url := ("ws://127.0.0.1:3000/websocket"),
    username := ("LangGraphAgent"),
    password := ("reasonablySafePassword1723"),
    clientPresent := true,
    clientUrl := ("ws://127.0.0.1:3000/websocket"),
    is_connected := false, is_logged_in := false }

/-- The client-recreation branch of `ensure_connection` (`self.client is
None`): build a new `MeteorClient(self.url)` and reset both flags. -/
def mccFresh (st : MCCState) : MCCState :=
  { st with clientPresent := true, clientUrl := st.url,
            is_connected := false, is_logged_in := false }

/-- The login block of `ensure_connection`: when not logged in, invoke
`self.client.login(self.username, self.password.encode(utf-8))`
unconditionally (no credential guard in this variant); a `socket.error`
becomes `ConnectionError`. -/
def mccLoginStep (st : MCCState) (o : Oracle) (tr : List Ev) :
    Except PyError Unit × MCCState × List Ev :=
  if st.is_logged_in then (Except.ok (), st, tr)
  else
    match o.loginErr with
    | some m =>
        (Except.error (PyError.connectionError
           ("Failed to login to Meteor server at " ++ st.url ++ ": " ++ m)),
         st, tr ++ [Ev.login st.username st.password])
    | none =>
        (Except.ok (), { st with is_logged_in := true },
         tr ++ [Ev.login st.username st.password])

/-- `MeteorClientConnection.ensure_connection`: recreate the client if it is
None, connect if not connected (a `socket.error` becomes `ConnectionError`
carrying the url and the cause), then run the login block. -/
def ensure_connection (st : MCCState) (o : Oracle) :
    Except PyError Unit × MCCState × List Ev :=
  let s1 := if st.clientPresent then st else mccFresh st
  let t1 : List Ev := if st.clientPresent then [] else [Ev.createClient st.url]
  if s1.is_connected then
    mccLoginStep s1 o t1
  else
    match o.connectErr with
    | some m =>
        (Except.error (PyError.connectionError
           ("Failed to connect to Meteor server at " ++ s1.url ++ ": " ++ m)),
         s1, t1 ++ [Ev.connect])
    | none => mccLoginStep { s1 with is_connected := true } o (t1 ++ [Ev.connect])

/-- The callback-to-future bridge shared by all three variants: a callback
fired with `(error, result)` resolves the awaited future with
`Exception` carrying the string form of `error` when `error` is truthy, and
with `result` otherwise.  (`str(Exception(x)) = str(x)` for a single
argument, so both `Exception(error)` and `Exception(str(error))` carry
`pyStr error`.) -/
def bridge (cbError cbResult : Value) : Except PyError Value :=
  if truthy cbError then Except.error (PyError.exception (pyStr cbError))
  else Except.ok cbResult

/-- `MeteorClientConnection.call`: run `ensure_connection` (propagating its
failure without issuing the RPC), then issue `self.client.call(method,
params, callback)` and await the future resolved by the callback fired with
`(cbError, cbResult)`. -/
def call (st : MCCState) (o : Oracle) (method : String) (params : List Value)
    (cbError cbResult : Value) : Except PyError Value × MCCState × List Ev :=
  match ensure_connection st o with
  | (Except.error e, s1, tr) => (Except.error e, s1, tr)
  | (Except.ok _, s1, tr) =>
      (bridge cbError cbResult, s1, tr ++ [Ev.rpcCall method params])

/-- One `call()` invocation of a run: the transport outcomes for this
invocation and the callback the transport fires. -/
structure CallStep where
  oracle : Oracle
  method : String
  params : List Value
  cbError : Value
  cbResult : Value

/-- A sequence of `call()` invocations on one manager, threading the state
and concatenating the traces. -/
def runCalls : MCCState → List CallStep → MCCState × List Ev
  | st, [] => (st, [])
  | st, c :: rest =>
      let r := call st c.oracle c.method c.params c.cbError c.cbResult
      let r2 := runCalls r.2.1 rest
      (r2.1, r.2.2 ++ r2.2)

/-- `MeteorClientConnection.create_tool.tool_function`: parse the payload
with `json.loads` (modelled by the parser argument `jsonLoads`; a parse
failure returns the `Invalid JSON` string without touching the network),
then await `self.call`, converting any raised exception into an error
string. -/
def tool_function (jsonLoads : String → Except String Value) (method : String)
    (st : MCCState) (o : Oracle) (cbError cbResult : Value) (payload : String) :
    Value × MCCState × List Ev :=
  match jsonLoads payload with
  | Except.error em => (Value.vstr ("Invalid JSON: " ++ em), st, ([] : List Ev))
  | Except.ok params =>
      match call st o method [params] cbError cbResult with
      | (Except.ok v, s1, tr) => (v, s1, tr)
      | (Except.error e, s1, tr) =>
          (Value.vstr ("Error calling " ++ method ++ ": " ++ pyErrMsg e), s1, tr)

/-! ### The singleton-style manager (src/utilities/meteor_tools.py) -/

/-- Python truthiness of an `Optional[str]` (`None` and `""` are falsy). -/
def truthyOpt : Option String → Bool
  | none => false
  | some s => !s.isEmpty

/-- Mutable class-level state of the manager in `meteor_tools.py`:
`_client` (presence), `_endpoint`, `_is_connected`, `_is_logged_in`. -/
structure MgrState where
  clientPresent : Bool
  endpoint : Option String
  is_connected : Bool
  is_logged_in : Bool

/-- The class attributes the manager starts with: `_client = None`,
`_endpoint = None`, both flags `False`. -/
def mgrInit : MgrState :=
  { clientPresent := false, endpoint := none,
    is_connected := false, is_logged_in := false }

/-- Client recreation in `get_client` (client is None or the endpoint
changed): `MeteorClient(meteor_url)` with both flags reset to `False` and
`_endpoint` stored. -/
def mgrFresh (url : String) : MgrState :=
  { clientPresent := true, endpoint := some url,
    is_connected := false, is_logged_in := false }

/-- The login block of `get_client`: `if username and password and not
self._is_logged_in:` — login with the UTF-8 bytes of the password; a raised
`socket.error` propagates uncaught in this variant. -/
def mgrLogin (st : MgrState) (o : Oracle) (user pw : Option String)
    (tr : List Ev) : Except PyError Unit × MgrState × List Ev :=
  if truthyOpt user && truthyOpt pw && !st.is_logged_in then
    match o.loginErr with
    | some m =>
        (Except.error (PyError.socketError m), st,
         tr ++ [Ev.login (user.getD ("")) (pw.getD (""))])
    | none =>
        (Except.ok (), { st with is_logged_in := true },
         tr ++ [Ev.login (user.getD ("")) (pw.getD (""))])
  else (Except.ok (), st, tr)

/-- `get_client` of the `meteor_tools.py` manager: recreate the client when
`self._client is None or self._endpoint != meteor_url`, connect when not
connected (errors propagate uncaught), then run the credential-guarded
login block. -/
def get_client (st : MgrState) (o : Oracle) (url : String)
    (user pw : Option String) : Except PyError Unit × MgrState × List Ev :=
  let recreate : Bool := !st.clientPresent || !(st.endpoint == some url)
  let s1 := if recreate then mgrFresh url else st
  let t1 : List Ev := if recreate then [Ev.createClient url] else []
  if s1.is_connected then
    mgrLogin s1 o user pw t1
  else
    match o.connectErr with
    | some m => (Except.error (PyError.socketError m), s1, t1 ++ [Ev.connect])
    | none => mgrLogin { s1 with is_connected := true } o user pw (t1 ++ [Ev.connect])

/-- `call_method` of the `meteor_tools.py` manager: `get_client` (failures
propagate), then issue `client.call(method_name, [params], callback)` and
await the future resolved by the callback. -/
def call_method (st : MgrState) (o : Oracle) (method : String) (params : Value)
    (url : String) (user pw : Option String) (cbError cbResult : Value) :
    Except PyError Value × MgrState × List Ev :=
  match get_client st o url user pw with
  | (Except.error e, s1, tr) => (Except.error e, s1, tr)
  | (Except.ok _, s1, tr) =>
      (bridge cbError cbResult, s1, tr ++ [Ev.rpcCall method [params]])

/-- One `get_client` invocation of a run: its per-call arguments and the
transport outcomes. -/
structure GetStep where
  oracle : Oracle
  url : String
  user : Option String
  pw : Option String

/-- A sequence of `get_client` invocations on the manager, threading the
state and concatenating the traces. -/
def runGets : MgrState → List GetStep → MgrState × List Ev
  | st, [] => (st, [])
  | st, g :: rest =>
      let r := get_client st g.oracle g.url g.user g.pw
      let r2 := runGets r.2.1 rest
      (r2.1, r.2.2 ++ r2.2)

/-! ### The per-call tool (src/meteor_tools/factory.py) -/

/-- The parameter computation of `create_meteor_tool.meteor_tool`: with a
schema configured the query is parsed as JSON (a parse failure becomes the
early textual return value); without a schema the raw string is wrapped as
the dict with single key `query`. -/
def toolParams (schema : Option Value) (jsonLoads : String → Except String Value)
    (query : String) : Except Value Value :=
  match schema with
  | some _ =>
      match jsonLoads query with
      | Except.error _ =>
          Except.error (Value.vstr ("Error: Invalid JSON in query: " ++ query))
      | Except.ok p => Except.ok p
  | none => Except.ok (Value.vobj [(("query"), Value.vstr query)])

/-- The textual error produced by the outer `except` of `meteor_tool`. -/
def mtErr (method msg : String) : String :=
  "Error calling Meteor method \x27" ++ method ++ "\x27: " ++ msg

/-- The tail of `meteor_tool` once the call is issued: `await future` inside
`try ... finally: client.disconnect()` — the disconnect event is emitted on
both the success and the failure resolution of the future, and a failure is
then converted to a textual error by the outer `except`. -/
def meteorToolCall (method : String) (params : Value) (cbError cbResult : Value)
    (tr : List Ev) : Value × List Ev :=
  let t := tr ++ [Ev.rpcCall method [params], Ev.disconnect]
  if truthy cbError then (Value.vstr (mtErr method (pyStr cbError)), t)
  else (cbResult, t)

/-- `create_meteor_tool.meteor_tool` of `factory.py`: compute the params
(early textual return on a parse failure), create a fresh `MeteorClient`,
connect, login when both credentials are truthy, issue the call and await it
with a `finally: disconnect()`; every raised exception is converted to a
textual error by the outer `except`. -/
def meteor_tool (schema : Option Value) (jsonLoads : String → Except String Value)
    (url user pw : String) (o : Oracle) (cbError cbResult : Value)
    (method query : String) : Value × List Ev :=
  match toolParams schema jsonLoads query with
  | Except.error v => (v, ([] : List Ev))
  | Except.ok params =>
      let t1 : List Ev := [Ev.createClient url]
      match o.connectErr with
      | some m => (Value.vstr (mtErr method m), t1 ++ [Ev.connect])
      | none =>
          let t2 := t1 ++ [Ev.connect]
          if !user.isEmpty && !pw.isEmpty then
            match o.loginErr with
            | some m => (Value.vstr (mtErr method m), t2 ++ [Ev.login user pw])
            | none => meteorToolCall method params cbError cbResult (t2 ++ [Ev.login user pw])
          else meteorToolCall method params cbError cbResult t2

/-! ### Configuration (src/react_agent/configuration.py) -/

/-- Python `os.environ.get(key) or dflt`: the default is used when the
variable is unset or empty. -/
def envOr (env : String → Option String) (key dflt : String) : String :=
  match env key with
  | none => dflt
  | some s => if s.isEmpty then dflt else s

/-- The Meteor fields of the `Configuration` dataclass. -/
structure CfgMeteor where
  meteor_url : String
  meteor_user_name : String
  meteor_user_password : String

/-- The Meteor fields as `configuration.py` computes them from the process
environment: each falls back to a hard-coded default, and no absence ever
raises. -/
def configurationOfEnv (env : String → Option String) : CfgMeteor :=
  { meteor_url := envOr env ("DEFAULT_METEOR_URL") ("ws://127.0.0.1:3000/websocket"),
    meteor_user_name := envOr env ("DEFAULT_METEOR_USERNAME") ("fnord"),
    meteor_user_password := envOr env ("DEFAULT_METEOR_PASSWORD") ("fnord") }

/-! ### Reachable states -/

/-- States a `MeteorClientConnection` instance can be in: the constructed
state, and closure under `ensure_connection` and `call` with arbitrary
transport outcomes. -/
inductive MCCReach : MCCState → Prop where
  | init : MCCReach mccInit0
  | ensure (st : MCCState) (o : Oracle) :
      MCCReach st → MCCReach (ensure_connection st o).2.1
  | callStep (st : MCCState) (o : Oracle) (m : String) (ps : List Value)
      (e r : Value) : MCCReach st → MCCReach (call st o m ps e r).2.1

/-- States the `meteor_tools.py` manager can be in: the class-attribute
state, and closure under `get_client` and `call_method` with arbitrary
endpoints (covering endpoint changes), credentials and transport
outcomes. -/
inductive MgrReach : MgrState → Prop where
  | init : MgrReach mgrInit
  | getStep (st : MgrState) (o : Oracle) (url : String) (user pw : Option String) :
      MgrReach st → MgrReach (get_client st o url user pw).2.1
  | callStep (st : MgrState) (o : Oracle) (m : String) (p : Value) (url : String)
      (user pw : Option String) (e r : Value) :
      MgrReach st → MgrReach (call_method st o m p url user pw e r).2.1

/-! ### Helper lemmas -/

theorem countConnect_append (a b : List Ev) :
    countConnect (a ++ b) = countConnect a + countConnect b := by
  simp [countConnect, List.filter_append]

theorem ensure_noop (st : MCCState) (o : Oracle) (hp : st.clientPresent = true)
    (hc : st.is_connected = true) (hl : st.is_logged_in = true) :
    ensure_connection st o = (Except.ok (), st, ([] : List Ev)) := by
  simp [ensure_connection, hp, hc, mccLoginStep, hl]

theorem call_state_trace (st : MCCState) (o : Oracle) (m : String)
    (ps : List Value) (e r : Value) :
    (call st o m ps e r).2.1 = (ensure_connection st o).2.1
    ∧ countConnect (call st o m ps e r).2.2
        = countConnect (ensure_connection st o).2.2 := by
  unfold call
  rcases hE : ensure_connection st o with ⟨res, s1, tr⟩
  cases res <;> simp [countConnect_append, countConnect, isConnectEv]

theorem ensure_inv (st : MCCState) (o : Oracle)
    (h : st.is_logged_in = true → st.is_connected = true) :
    (ensure_connection st o).2.1.is_logged_in = true →
    (ensure_connection st o).2.1.is_connected = true := by
  obtain ⟨co, lo⟩ := o
  by_cases hp : st.clientPresent <;> by_cases hc : st.is_connected <;>
  by_cases hl : st.is_logged_in <;> cases co <;> cases lo <;>
    simp_all [ensure_connection, mccLoginStep, mccFresh]

theorem get_client_inv (st : MgrState) (o : Oracle) (url : String)
    (user pw : Option String)
    (h : st.is_logged_in = true → st.is_connected = true) :
    (get_client st o url user pw).2.1.is_logged_in = true →
    (get_client st o url user pw).2.1.is_connected = true := by
  obtain ⟨co, lo⟩ := o
  by_cases hr : (!st.clientPresent || !(st.endpoint == some url)) = true <;>
  by_cases hc : st.is_connected <;> by_cases hl : st.is_logged_in <;>
  by_cases hu : truthyOpt user <;> by_cases hw : truthyOpt pw <;>
  cases co <;> cases lo <;>
    simp_all [get_client, mgrLogin, mgrFresh]

theorem call_method_state (st : MgrState) (o : Oracle) (m : String) (p : Value)
    (url : String) (user pw : Option String) (e r : Value) :
    (call_method st o m p url user pw e r).2.1
      = (get_client st o url user pw).2.1 := by
  unfold call_method
  rcases hE : get_client st o url user pw with ⟨res, s1, tr⟩
  cases res <;> rfl

/-- C8: in every state reachable by any sequence of manager operations
(construction, ensure_connection / get_client with arbitrary endpoints —
covering endpoint changes — and call / call_method, under arbitrary
transport outcomes), `is_logged_in = true` implies `is_connected = true`,
for both manager variants; and the client-recreation step of either variant
(first use or endpoint change) resets both flags to false. -/
theorem c8_auth_implies_connected :
    (∀ st : MCCState, MCCReach st → st.is_logged_in = true → st.is_connected = true)
  ∧ (∀ st : MgrState, MgrReach st → st.is_logged_in = true → st.is_connected = true)
  ∧ (∀ url : String, (mgrFresh url).is_connected = false ∧ (mgrFresh url).is_logged_in = false)
  ∧ (∀ st : MCCState, (mccFresh st).is_connected = false ∧ (mccFresh st).is_logged_in = false) := by
  refine ⟨?_, ?_, fun url => ⟨rfl, rfl⟩, fun st => ⟨rfl, rfl⟩⟩
  · intro st hst
    induction hst with
    | init => exact fun h => nomatch h
    | ensure st o hst ih => exact ensure_inv st o ih
    | callStep st o m ps e r hst ih =>
        rw [(call_state_trace st o m ps e r).1]
        exact ensure_inv st o ih
  · intro st hst
    induction hst with
    | init => exact fun h => nomatch h
    | getStep st o url user pw hst ih => exact get_client_inv st o url user pw ih
    | callStep st o m p url user pw e r hst ih =>
        rw [call_method_state st o m p url user pw e r]
        exact get_client_inv st o url user pw ih

theorem c8_witness :
    (ensure_connection mccInit0 oracleOk).2.1.is_connected = true
    ∧ (get_client mgrInit oracleOk ("ws://e") (some ("u")) (some ("p"))).2.1.is_connected = true :=
  ⟨c8_auth_implies_connected.1 _ (MCCReach.ensure mccInit0 oracleOk MCCReach.init) rfl,
   c8_auth_implies_connected.2.1 _
     (MgrReach.getStep mgrInit oracleOk ("ws://e") (some ("u")) (some ("p")) MgrReach.init) rfl⟩

/-- C2: for a pending call whose `ensure_connection` precondition is already
satisfied (client present, connected, logged in), a callback fired with a
truthy error value makes the awaited call fail with an exception carrying
exactly the string form of that error value (`Exception(error)` stringifies
to `str(error)`), and a callback fired with a falsy error makes the awaited
call return exactly the result value. -/
theorem c2_call_bridge (st : MCCState) (o : Oracle) (method : String)
    (params : List Value) (e r : Value) (hp : st.clientPresent = true)
    (hc : st.is_connected = true) (hl : st.is_logged_in = true) :
    (truthy e = true →
       (call st o method params e r).1 = Except.error (PyError.exception (pyStr e)))
    ∧ (truthy e = false → (call st o method params e r).1 = Except.ok r) := by
  have hE := ensure_noop st o hp hc hl
  constructor <;> intro ht <;> simp [call, hE, bridge, ht]

/-- A `MeteorClientConnection` state that is already connected and logged in. -/
def stReady : MCCState :=
  { mccInit0 with is_connected := true, is_logged_in := true }

theorem c2_witness :
    (call stReady oracleOk ("Echo") [] (Value.vstr ("boom")) Value.vnull).1
       = Except.error (PyError.exception ("boom"))
    ∧ (call stReady oracleOk ("Echo") [] Value.vnull (Value.vstr ("ok"))).1
       = Except.ok (Value.vstr ("ok")) :=
  ⟨(c2_call_bridge stReady oracleOk ("Echo") [] (Value.vstr ("boom")) Value.vnull
      rfl rfl rfl).1 rfl,
   (c2_call_bridge stReady oracleOk ("Echo") [] Value.vnull (Value.vstr ("ok"))
      rfl rfl rfl).2 rfl⟩

/-- C3: invoking `ensure_connection` in the not-connected state when the
connect operation of the transport fails makes it fail with a `ConnectionError`
whose message carries the configured endpoint and the underlying cause, and
the `is_connected` flag remains false. -/
theorem c3_connect_failure (st : MCCState) (o : Oracle) (m : String)
    (hc : st.is_connected = false) (hm : o.connectErr = some m) :
    (ensure_connection st o).1
      = Except.error (PyError.connectionError
          ("Failed to connect to Meteor server at " ++ st.url ++ ": " ++ m))
    ∧ (ensure_connection st o).2.1.is_connected = false := by
  by_cases hp : st.clientPresent <;> simp [ensure_connection, hp, hc, mccFresh, hm]

theorem c3_witness :
    (ensure_connection mccInit0 { connectErr := some ("refused"), loginErr := none }).1
      = Except.error (PyError.connectionError
          ("Failed to connect to Meteor server at " ++ mccInit0.url ++ ": " ++ "refused"))
    ∧ (ensure_connection mccInit0
        { connectErr := some ("refused"), loginErr := none }).2.1.is_connected = false :=
  c3_connect_failure mccInit0 _ ("refused") rfl rfl

/-- C5: the constructor never raises, for any process environment — the
environment lookups are commented out in the source and replaced by
hard-coded literals, so the `is None` validation checks (including the one
for the PASSWORD variable) are dead code, and `Configuration` likewise falls
back to hard-coded defaults instead of raising.  This contradicts the claim
(and the dead validation checks of the constructor itself): constructing without the
PASSWORD env value set succeeds instead of raising a configuration error. -/
theorem c5_construction_never_raises :
    (∀ (pfx : String) (env : String → Option String),
       mccInitEnv pfx env = Except.ok (mccInit0, [Ev.createClient (mccInit0.url)]))
    ∧ configurationOfEnv (fun _ => none)
        = { meteor_url := ("ws://127.0.0.1:3000/websocket"),
            meteor_user_name := ("fnord"), meteor_user_password := ("fnord") } :=
  ⟨fun _ _ => rfl, rfl⟩

theorem ensure_connected_no_connect (st : MCCState) (o : Oracle)
    (hp : st.clientPresent = true) (hc : st.is_connected = true) :
    countConnect (ensure_connection st o).2.2 = 0
    ∧ (ensure_connection st o).2.1.is_connected = true
    ∧ (ensure_connection st o).2.1.clientPresent = true := by
  obtain ⟨co, lo⟩ := o
  by_cases hl : st.is_logged_in <;> cases lo <;>
    simp_all [ensure_connection, mccLoginStep, countConnect, isConnectEv]

theorem ensure_ok_connects_once (st : MCCState) (o : Oracle)
    (hp : st.clientPresent = true) (hco : o.connectErr = none) :
    countConnect (ensure_connection st o).2.2 ≤ 1
    ∧ (ensure_connection st o).2.1.is_connected = true
    ∧ (ensure_connection st o).2.1.clientPresent = true := by
  by_cases hc : st.is_connected <;> by_cases hl : st.is_logged_in <;>
  cases hlo : o.loginErr <;>
    simp_all [ensure_connection, mccLoginStep, countConnect, isConnectEv]

theorem runCalls_connected (steps : List CallStep) :
    ∀ st : MCCState, st.clientPresent = true → st.is_connected = true →
    countConnect (runCalls st steps).2 = 0
    ∧ (runCalls st steps).1.is_connected = true
    ∧ (runCalls st steps).1.clientPresent = true := by
  induction steps with
  | nil => exact fun st hp hc => ⟨rfl, hc, hp⟩
  | cons c rest ih =>
      intro st hp hc
      have h1 := ensure_connected_no_connect st c.oracle hp hc
      have hs := call_state_trace st c.oracle c.method c.params c.cbError c.cbResult
      have hcon : (call st c.oracle c.method c.params c.cbError c.cbResult).2.1.is_connected = true := by
        rw [hs.1]; exact h1.2.1
      have hpre : (call st c.oracle c.method c.params c.cbError c.cbResult).2.1.clientPresent = true := by
        rw [hs.1]; exact h1.2.2
      have ihr := ih (call st c.oracle c.method c.params c.cbError c.cbResult).2.1 hpre hcon
      refine ⟨?_, ihr.2.1, ihr.2.2⟩
      have hcount : countConnect (call st c.oracle c.method c.params c.cbError c.cbResult).2.2 = 0 := by
        rw [hs.2]; exact h1.1
      simp [runCalls, countConnect_append, hcount, ihr.1]

theorem runCalls_success (steps : List CallStep) :
    ∀ st : MCCState, st.clientPresent = true →
    (∀ s ∈ steps, s.oracle.connectErr = none) →
    countConnect (runCalls st steps).2 ≤ 1 := by
  induction steps with
  | nil => intro st hp hall; simp [runCalls, countConnect]
  | cons c rest ih =>
      intro st hp hall
      by_cases hc : st.is_connected
      · have h := (runCalls_connected (c :: rest) st hp hc).1
        omega
      · have hco := hall c (by simp)
        have h1 := ensure_ok_connects_once st c.oracle hp hco
        have hs := call_state_trace st c.oracle c.method c.params c.cbError c.cbResult
        have hcon : (call st c.oracle c.method c.params c.cbError c.cbResult).2.1.is_connected = true := by
          rw [hs.1]; exact h1.2.1
        have hpre : (call st c.oracle c.method c.params c.cbError c.cbResult).2.1.clientPresent = true := by
          rw [hs.1]; exact h1.2.2
        have hrest := (runCalls_connected rest _ hpre hcon).1
        have hcount : countConnect (call st c.oracle c.method c.params c.cbError c.cbResult).2.2 ≤ 1 := by
          rw [hs.2]; exact h1.1
        simp [runCalls, countConnect_append, hrest]
        omega

/-- C4 (amended): for sequences of `call()` invocations on a fresh manager
with its fixed configured endpoint, the connect operation of the transport
executes at most once provided each attempted connect succeeds (after a
failed connect attempt, `is_connected` stays false and the next call
re-attempts connect — see the counterexample); and invoking
`ensure_connection` when the manager is already connected and authenticated
(client present) is a no-op: the state is unchanged and no transport
operation is performed. -/
theorem c4_connect_idempotent :
    (∀ (st : MCCState) (o : Oracle), st.clientPresent = true →
       st.is_connected = true → st.is_logged_in = true →
       ensure_connection st o = (Except.ok (), st, ([] : List Ev)))
    ∧ (∀ steps : List CallStep, (∀ s ∈ steps, s.oracle.connectErr = none) →
       countConnect (runCalls mccInit0 steps).2 ≤ 1) :=
  ⟨ensure_noop, fun steps hall => runCalls_success steps mccInit0 rfl hall⟩

/-- A `call()` invocation during which the connect operation of the transport
fails. -/
def badStep : CallStep :=
  { oracle := { connectErr := some ("connection refused"), loginErr := none },
    method := ("Echo"), params := [], cbError := Value.vnull, cbResult := Value.vnull }

/-- C4 counterexample: on a fresh manager with its fixed endpoint, two
`call()` invocations during which the connect operation of the transport fails
execute connect twice — refuting "the connect operation is executed at most
once per distinct endpoint regardless of the number of calls". -/
theorem c4_counterexample :
    countConnect (runCalls mccInit0 [badStep, badStep]).2 = 2
    ∧ ¬ countConnect (runCalls mccInit0 [badStep, badStep]).2 ≤ 1 := by
  have h : countConnect (runCalls mccInit0 [badStep, badStep]).2 = 2 := rfl
  exact ⟨h, by rw [h]; omega⟩

/-- A `call()` invocation during which every transport operation succeeds. -/
def okStep : CallStep :=
  { oracle := oracleOk, method := ("Echo"), params := [],
    cbError := Value.vnull, cbResult := Value.vnull }

theorem c4_witness :
    ensure_connection stReady oracleOk = (Except.ok (), stReady, ([] : List Ev))
    ∧ countConnect (runCalls mccInit0 [okStep, okStep]).2 ≤ 1 :=
  ⟨c4_connect_idempotent.1 stReady oracleOk rfl rfl rfl,
   c4_connect_idempotent.2 [okStep, okStep]
     (by intro s hs; simp at hs; subst hs; rfl)⟩

theorem get_client_skip_login (st : MgrState) (o : Oracle) (url : String)
    (user pw : Option String)
    (h : truthyOpt user = false ∨ truthyOpt pw = false) :
    noLogin (get_client st o url user pw).2.2 = true
    ∧ (st.is_logged_in = false → (get_client st o url user pw).2.1.is_logged_in = false)
    ∧ (o.connectErr = none → (get_client st o url user pw).1 = Except.ok ()) := by
  obtain ⟨co, lo⟩ := o
  by_cases hu : truthyOpt user <;> by_cases hw : truthyOpt pw <;>
  by_cases hr : (!st.clientPresent || !(st.endpoint == some url)) = true <;>
  by_cases hc : st.is_connected <;> by_cases hl : st.is_logged_in <;> cases co <;>
    simp_all [get_client, mgrLogin, mgrFresh, noLogin, isLoginEv]

theorem runGets_skip_login (steps : List GetStep) :
    ∀ st : MgrState,
    (∀ g ∈ steps, truthyOpt g.user = false ∨ truthyOpt g.pw = false) →
    st.is_logged_in = false →
    (runGets st steps).1.is_logged_in = false
    ∧ noLogin (runGets st steps).2 = true := by
  induction steps with
  | nil => exact fun st hall hl => ⟨hl, rfl⟩
  | cons g rest ih =>
      intro st hall hl
      have h1 := get_client_skip_login st g.oracle g.url g.user g.pw (hall g (by simp))
      have ihr := ih (get_client st g.oracle g.url g.user g.pw).2.1
        (fun x hx => hall x (by simp [hx])) (h1.2.1 hl)
      refine ⟨ihr.1, ?_⟩
      simp only [runGets, noLogin, List.all_append, Bool.and_eq_true]
      exact ⟨h1.1, ihr.2⟩

/-- C1: whenever the configured username or credential is empty or absent,
login is never invoked and `is_logged_in` stays false for the whole run
without an error arising from the missing credentials.  For `get_client`
(the variant that takes credentials) this holds for arbitrary invocation
sequences; for the `ensure_connection` variant the hypothesis never arises,
because its constructor hard-codes non-empty username and password for every
environment. -/
theorem c1_no_login_without_credentials :
    (∀ (st : MgrState) (steps : List GetStep),
       (∀ g ∈ steps, truthyOpt g.user = false ∨ truthyOpt g.pw = false) →
       st.is_logged_in = false →
       (runGets st steps).1.is_logged_in = false ∧ noLogin (runGets st steps).2 = true)
    ∧ (∀ (st : MgrState) (o : Oracle) (url : String) (user pw : Option String),
       (truthyOpt user = false ∨ truthyOpt pw = false) → o.connectErr = none →
       (get_client st o url user pw).1 = Except.ok ())
    ∧ (∀ (pfx : String) (env : String → Option String) (st : MCCState) (tr : List Ev),
       mccInitEnv pfx env = Except.ok (st, tr) →
       st.username.isEmpty = false ∧ st.password.isEmpty = false) := by
  refine ⟨fun st steps hall hl => runGets_skip_login steps st hall hl,
          fun st o url user pw h hc => (get_client_skip_login st o url user pw h).2.2 hc,
          ?_⟩
  intro pfx env st tr h
  simp only [mccInitEnv, Except.ok.injEq, Prod.mk.injEq] at h
  rw [← h.1]
  exact ⟨rfl, rfl⟩

/-- A `get_client` invocation with no credentials supplied. -/
def gNoCred : GetStep :=
  { oracle := oracleOk, url := ("ws://e"), user := none, pw := none }

theorem c1_witness :
    ((runGets mgrInit [gNoCred]).1.is_logged_in = false
       ∧ noLogin (runGets mgrInit [gNoCred]).2 = true)
    ∧ (get_client mgrInit oracleOk ("ws://e") none none).1 = Except.ok ()
    ∧ (mccInit0.username.isEmpty = false ∧ mccInit0.password.isEmpty = false) :=
  ⟨c1_no_login_without_credentials.1 mgrInit [gNoCred]
     (by intro g hg; simp at hg; subst hg; exact Or.inl rfl) rfl,
   c1_no_login_without_credentials.2.1 mgrInit oracleOk ("ws://e") none none (Or.inl rfl) rfl,
   c1_no_login_without_credentials.2.2 ("DEFAULT") (fun _ => none) mccInit0
     [Ev.createClient (mccInit0.url)] rfl⟩

/-- C6: with a schema configured, a payload that fails JSON parsing makes
the tool adapter return a string containing "Invalid JSON" (the parser
message appended), with the state unchanged and an empty effect trace — no
connect, login or RPC call — and without raising (the adapter is a total
function into values); and every internal failure of the awaited call
(connection, authentication, RPC) is returned as a descriptive
"Error calling ..." string carrying the exception message, not raised. -/
theorem c6_tool_errors_textual :
    (∀ (jsonLoads : String → Except String Value) (method : String) (st : MCCState)
       (o : Oracle) (e r : Value) (payload em : String),
       jsonLoads payload = Except.error em →
       tool_function jsonLoads method st o e r payload
         = (Value.vstr ("Invalid JSON: " ++ em), st, ([] : List Ev)))
    ∧ (∀ (jsonLoads : String → Except String Value) (method : String) (st : MCCState)
       (o : Oracle) (e r : Value) (payload : String) (params : Value)
       (err : PyError) (s1 : MCCState) (tr : List Ev),
       jsonLoads payload = Except.ok params →
       call st o method [params] e r = (Except.error err, s1, tr) →
       tool_function jsonLoads method st o e r payload
         = (Value.vstr ("Error calling " ++ method ++ ": " ++ pyErrMsg err), s1, tr)) := by
  constructor
  · intro jL method st o e r payload em h
    simp [tool_function, h]
  · intro jL method st o e r payload params err s1 tr h1 h2
    simp [tool_function, h1, h2]

/-- A JSON parser that rejects every payload, as `json.loads` does on
"not json". -/
def jAlwaysFail : String → Except String Value :=
  fun _ => Except.error ("Expecting value: line 1 column 1 (char 0)")

/-- A JSON parser that accepts every payload as a JSON string. -/
def jConst : String → Except String Value := fun s => Except.ok (Value.vstr s)

/-- Transport behaviour whose connect operation fails. -/
def oracleConnFail : Oracle :=
  { connectErr := some ("connection refused"), loginErr := none }

theorem c6_witness :
    tool_function jAlwaysFail ("TestCall") mccInit0 oracleOk Value.vnull Value.vnull ("not json")
      = (Value.vstr ("Invalid JSON: " ++ "Expecting value: line 1 column 1 (char 0)"),
         mccInit0, ([] : List Ev))
    ∧ tool_function jConst ("TestCall") mccInit0 oracleConnFail Value.vnull Value.vnull ("x")
      = (Value.vstr ("Error calling " ++ "TestCall" ++ ": "
           ++ pyErrMsg (PyError.connectionError
                ("Failed to connect to Meteor server at " ++ mccInit0.url
                   ++ ": " ++ "connection refused"))),
         mccInit0, [Ev.connect]) :=
  ⟨c6_tool_errors_textual.1 jAlwaysFail ("TestCall") mccInit0 oracleOk
     Value.vnull Value.vnull ("not json") _ rfl,
   c6_tool_errors_textual.2 jConst ("TestCall") mccInit0 oracleConnFail
     Value.vnull Value.vnull ("x") (Value.vstr ("x"))
     (PyError.connectionError
        ("Failed to connect to Meteor server at " ++ mccInit0.url
           ++ ": " ++ "connection refused"))
     mccInit0 [Ev.connect] rfl rfl⟩

theorem meteor_tool_network_eq (schema : Option Value)
    (jsonLoads : String → Except String Value) (url user pw : String) (o : Oracle)
    (e r : Value) (method query : String) (params : Value)
    (hp : toolParams schema jsonLoads query = Except.ok params)
    (hc : o.connectErr = none)
    (hl : (!user.isEmpty && !pw.isEmpty) = true → o.loginErr = none) :
    meteor_tool schema jsonLoads url user pw o e r method query
      = ((if truthy e then Value.vstr (mtErr method (pyStr e)) else r),
         [Ev.createClient url, Ev.connect]
           ++ (if (!user.isEmpty && !pw.isEmpty) = true then [Ev.login user pw] else [])
           ++ [Ev.rpcCall method [params], Ev.disconnect]) := by
  by_cases hup : (!user.isEmpty && !pw.isEmpty) = true
  · simp [meteor_tool, hp, hc, hup, hl hup, meteorToolCall]
    split <;> rfl
  · simp [meteor_tool, hp, hc, hup, meteorToolCall]
    split <;> rfl

/-- C7: a tool created by `create_meteor_tool` without a JSON schema never
invokes the JSON parser on its input (its behaviour is identical for any
two parsers), and the RPC it issues passes the single-key dict
`query: <input>` as the sole positional argument of the remote call. -/
theorem c7_no_schema_query_wrap :
    (∀ (j1 j2 : String → Except String Value) (url user pw : String) (o : Oracle)
       (e r : Value) (method query : String),
       meteor_tool none j1 url user pw o e r method query
         = meteor_tool none j2 url user pw o e r method query)
    ∧ (∀ (j : String → Except String Value) (url user pw : String) (o : Oracle)
       (e r : Value) (method query : String),
       o.connectErr = none → ((!user.isEmpty && !pw.isEmpty) = true → o.loginErr = none) →
       Ev.rpcCall method [Value.vobj [(("query"), Value.vstr query)]]
         ∈ (meteor_tool none j url user pw o e r method query).2) := by
  constructor
  · intro j1 j2 url user pw o e r method query; rfl
  · intro j url user pw o e r method query hc hl
    rw [meteor_tool_network_eq none j url user pw o e r method query
         (Value.vobj [(("query"), Value.vstr query)]) rfl hc hl]
    simp

theorem c7_witness :
    meteor_tool none jAlwaysFail ("ws://e") ("u") ("p") oracleOk Value.vnull Value.vnull ("m") ("hello")
      = meteor_tool none jConst ("ws://e") ("u") ("p") oracleOk Value.vnull Value.vnull ("m") ("hello")
    ∧ Ev.rpcCall ("m") [Value.vobj [(("query"), Value.vstr ("hello"))]]
        ∈ (meteor_tool none jConst ("ws://e") ("u") ("p") oracleOk Value.vnull Value.vnull ("m") ("hello")).2 :=
  ⟨c7_no_schema_query_wrap.1 jAlwaysFail jConst ("ws://e") ("u") ("p") oracleOk
     Value.vnull Value.vnull ("m") ("hello"),
   c7_no_schema_query_wrap.2 jConst ("ws://e") ("u") ("p") oracleOk
     Value.vnull Value.vnull ("m") ("hello") rfl (fun _ => rfl)⟩

/-- C9: every invocation of a `create_meteor_tool` tool that reaches the
network phase (params computed, connect and — when credentials are truthy —
login succeed) creates a fresh transport for that single call, connects it,
issues the RPC, and invokes disconnect before returning, on both the
success path (`truthy e = false`) and the failure path (`truthy e = true`)
of the awaited result; the whole per-invocation effect trace is
`[create, connect] ++ login? ++ [rpcCall, disconnect]`, so no transport
survives across two invocations. -/
theorem c9_per_call_lifecycle :
    ∀ (schema : Option Value) (j : String → Except String Value)
      (url user pw : String) (o : Oracle) (e r : Value) (method query : String)
      (params : Value),
      toolParams schema j query = Except.ok params → o.connectErr = none →
      ((!user.isEmpty && !pw.isEmpty) = true → o.loginErr = none) →
      meteor_tool schema j url user pw o e r method query
        = ((if truthy e then Value.vstr (mtErr method (pyStr e)) else r),
           [Ev.createClient url, Ev.connect]
             ++ (if (!user.isEmpty && !pw.isEmpty) = true then [Ev.login user pw] else [])
             ++ [Ev.rpcCall method [params], Ev.disconnect]) :=
  fun schema j url user pw o e r method query params hp hc hl =>
    meteor_tool_network_eq schema j url user pw o e r method query params hp hc hl

theorem c9_witness :
    meteor_tool (some (Value.vobj [])) jConst ("ws://e") ("u") ("p") oracleOk
        (Value.vstr ("boom")) Value.vnull ("m") ("q")
      = (Value.vstr (mtErr ("m") ("boom")),
         [Ev.createClient ("ws://e"), Ev.connect]
           ++ [Ev.login ("u") ("p")]
           ++ [Ev.rpcCall ("m") [Value.vstr ("q")], Ev.disconnect])
    ∧ meteor_tool (some (Value.vobj [])) jConst ("ws://e") ("u") ("p") oracleOk
        Value.vnull (Value.vstr ("ok")) ("m") ("q")
      = (Value.vstr ("ok"),
         [Ev.createClient ("ws://e"), Ev.connect]
           ++ [Ev.login ("u") ("p")]
           ++ [Ev.rpcCall ("m") [Value.vstr ("q")], Ev.disconnect]) := by
  have h1 := c9_per_call_lifecycle (some (Value.vobj [])) jConst ("ws://e") ("u") ("p")
    oracleOk (Value.vstr ("boom")) Value.vnull ("m") ("q") (Value.vstr ("q"))
    rfl rfl (fun _ => rfl)
  have h2 := c9_per_call_lifecycle (some (Value.vobj [])) jConst ("ws://e") ("u") ("p")
    oracleOk Value.vnull (Value.vstr ("ok")) ("m") ("q") (Value.vstr ("q"))
    rfl rfl (fun _ => rfl)
  exact ⟨h1, h2⟩

end Meteor
